import Mathlib

/-!
Verification of the multi-agent discussion pipeline of the `bio-design`
repository: a shallow embedding of the discussion state machine
(`src/agents/need_finder.py`), the evaluator (`src/agents/evaluator.py`)
and the prioritization / background-runner logic (`run_api.py`), together
with theorems settling the frozen specification claims.

External effects (LLM responses, classifier judgments, schema-parse
outcomes, `ast.literal_eval` outcomes, observer callbacks) are modelled as
explicit oracle parameters: `none` models a raised exception, `some v` a
value returned by the external collaborator.
-/

namespace BioDesign

/-- LangChain message as stored in `ReflectionState.messages`:
`HumanMessage` or `AIMessage`, each carrying its text content. -/
inductive Message where
  | human (content : String)
  | ai (content : String)
  deriving Repr, DecidableEq

/-- Content accessor, used when the pipeline renders `msg.content`. -/
def Message.content : Message → String
  | .human c => c
  | .ai c => c

/-- The `ReflectionState` TypedDict of `need_finder.py`. -/
structure ReflectionState where
  messages : List Message
  medical_insights : List String
  engineering_insights : List String
  discussion_round : Nat
  max_rounds : Nat
  final_summary : String
  deriving Repr, DecidableEq

/-- The `NeedItem` pydantic model of `need_finder.py`: five text fields. -/
structure NeedItem where
  need : String
  summary : String
  medical_insights : String
  tech_insights : String
  strategy : String
  deriving Repr, DecidableEq

/-- The `NeedsOutput` pydantic model: a list of `NeedItem`. -/
structure NeedsOutput where
  needs : List NeedItem
  deriving Repr, DecidableEq

/-- The sentinel "extraction failed" needs dictionary built in the
`except` branch of `collector_node` (`need_finder.py` lines 256-267). -/
def parseFailureNeeds : NeedsOutput :=
  { needs := [{ need := "解析失敗的需求",
                summary := "解析失敗，請檢查輸出格式",
                medical_insights := "無法解析醫療洞察",
                tech_insights := "無法解析技術洞察",
                strategy := "無法解析策略" }] }

/-- Renders a string the way CPython `str()` renders a `str` inside a dict
(single-quoted).  Quote-escaping heuristics of `repr` are not modelled;
no claim depends on the rendered text, only on the parse oracle applied
to it later. -/
def pyReprStr (s : String) : String := "\x27" ++ s ++ "\x27"

/-- Renders one need dict entry the way CPython `str()` renders it. -/
def needItemStr (n : NeedItem) : String :=
  "\x7b" ++ pyReprStr "need" ++ ": " ++ pyReprStr n.need ++ ", "
        ++ pyReprStr "summary" ++ ": " ++ pyReprStr n.summary ++ ", "
        ++ pyReprStr "medical_insights" ++ ": " ++ pyReprStr n.medical_insights ++ ", "
        ++ pyReprStr "tech_insights" ++ ": " ++ pyReprStr n.tech_insights ++ ", "
        ++ pyReprStr "strategy" ++ ": " ++ pyReprStr n.strategy ++ "\x7d"

/-- Renders the whole parsed-needs dict, modelling `str(parsed_output)`
in `collector_node`. -/
def needsOutputStr (o : NeedsOutput) : String :=
  "\x7b" ++ pyReprStr "needs" ++ ": ["
        ++ String.intercalate ", " (o.needs.map needItemStr) ++ "]\x7d"

/-- `medical_staff_node` (`need_finder.py` lines 122-163), success path:
appends the LLM response to `messages` and `medical_insights` and
increments `discussion_round` by one.  `response` is the text returned by
the LLM Gateway for this turn. -/
def medical_staff_node (state : ReflectionState) (response : String) : ReflectionState :=
  { state with
    messages := state.messages ++ [Message.ai response],
    medical_insights := state.medical_insights ++ [response],
    discussion_round := state.discussion_round + 1 }

/-- `engineer_node` (`need_finder.py` lines 165-206), success path:
appends the LLM response to `messages` and `engineering_insights` and
increments `discussion_round` by one. -/
def engineer_node (state : ReflectionState) (response : String) : ReflectionState :=
  { state with
    messages := state.messages ++ [Message.ai response],
    engineering_insights := state.engineering_insights ++ [response],
    discussion_round := state.discussion_round + 1 }

/-- The dict produced by `collector_node`'s try/except: the parsed model
output on success (`parseOutcome = some r`, including a possibly empty
needs list), or the sentinel failure dict when `chain.invoke` raised
(`parseOutcome = none`). -/
def collectorParsedOutput (parseOutcome : Option NeedsOutput) : NeedsOutput :=
  match parseOutcome with
  | some response => response
  | none => parseFailureNeeds

/-- `collector_node` (`need_finder.py` lines 208-273): resolves the parse
outcome, appends `AIMessage(content=str(parsed_output))` to the messages
and stores `str(parsed_output)` as `final_summary`.  The round counter is
not touched. -/
def collector_node (state : ReflectionState) (parseOutcome : Option NeedsOutput) :
    ReflectionState :=
  let parsed_output := collectorParsedOutput parseOutcome
  { state with
    messages := state.messages ++ [Message.ai (needsOutputStr parsed_output)],
    final_summary := needsOutputStr parsed_output }

/-- Characters removed by Python's `str.strip()` with no argument. -/
def isPyWS (c : Char) : Bool :=
  c = ' ' || c = '\t' || c = '\n' || c = '\r' || c = '\x0b' || c = '\x0c'

/-- Python's `str.strip()`: drop leading and trailing whitespace. -/
def pyStrip (s : String) : String :=
  String.mk (((s.data.dropWhile isPyWS).reverse.dropWhile isPyWS).reverse)

/-- Python's `str.lower()` (ASCII case folding suffices for the two
labels the router compares against). -/
def pyLower (s : String) : String := String.mk (s.data.map Char.toLower)

/-- Occurrence of `sub` as a contiguous sublist. -/
def containsSublist (sub : List Char) : List Char → Bool
  | [] => sub.isEmpty
  | c :: rest => sub.isPrefixOf (c :: rest) || containsSublist sub rest

/-- Python's `sub in s` substring test. -/
def pyIn (sub s : String) : Bool := containsSublist sub.data s.data

/-- The deterministic alternation fallback appearing twice in
`_should_continue_discussion` (`need_finder.py` lines 311 and 315):
`"engineer_agent" if current_round % 2 == 0 else "medical"`. -/
def parityFallback (current_round : Nat) : String :=
  if current_round % 2 = 0 then "engineer_agent" else "medical"

/-- `_should_continue_discussion` (`need_finder.py` lines 275-318).
`judgment` is the raw classifier LLM content (`none` models the
classifier call raising).  The model applies `.strip().lower()` to the
raw content exactly as the source does before the substring tests. -/
def shouldContinueDiscussion (state : ReflectionState) (judgment : Option String) : String :=
  let current_round := state.discussion_round
  let max_rounds := state.max_rounds
  if max_rounds ≤ current_round then "collector"
  else
    match state.messages.getLast? with
    | some (Message.ai _) =>
      match judgment with
      | some raw =>
        let j := pyLower (pyStrip raw)
        if pyIn "medical" j then "engineer_agent"
        else if pyIn "engineering" j then "medical"
        else parityFallback current_round
      | none => parityFallback current_round
    | _ => "medical"

/-- Hard stop of the router: whenever `discussion_round >= max_rounds`
the very first check of `_should_continue_discussion` fires and the
router returns `"collector"`, whatever the classifier did. -/
theorem shouldContinueDiscussion_hard_stop (state : ReflectionState) (judgment : Option String)
    (h : state.max_rounds ≤ state.discussion_round) :
    shouldContinueDiscussion state judgment = "collector" := by
  unfold shouldContinueDiscussion
  simp [h]

/-- The router only ever returns one of the three labels that the graph's
conditional-edge mapping routes to a node (`"end"` is in the mapping but
never produced). -/
theorem shouldContinueDiscussion_range (state : ReflectionState) (judgment : Option String) :
    shouldContinueDiscussion state judgment = "collector" ∨
    shouldContinueDiscussion state judgment = "medical" ∨
    shouldContinueDiscussion state judgment = "engineer_agent" := by
  unfold shouldContinueDiscussion parityFallback
  by_cases h : state.max_rounds ≤ state.discussion_round
  · simp [h]
  · rcases hLast : state.messages.getLast? with _ | msg
    · simp [hLast, h]
    · cases msg with
      | human c => simp [hLast, h]
      | ai c =>
        rcases judgment with _ | raw
        · by_cases h3 : state.discussion_round % 2 = 0 <;> simp [hLast, h, h3]
        · by_cases h1 : pyIn "medical" (pyLower (pyStrip raw))
          · simp [hLast, h, h1]
          · by_cases h2 : pyIn "engineering" (pyLower (pyStrip raw))
            · simp [hLast, h, h1, h2]
            · by_cases h3 : state.discussion_round % 2 = 0 <;>
                simp [hLast, h, h1, h2, h3]

/-- If the router did not send the run to the collector, the round budget
was not yet exhausted. -/
theorem round_lt_of_continue (state : ReflectionState) (judgment : Option String)
    (h : shouldContinueDiscussion state judgment ≠ "collector") :
    state.discussion_round < state.max_rounds := by
  by_contra hc
  exact h (shouldContinueDiscussion_hard_stop state judgment (Nat.le_of_not_lt hc))

/-- Outcome of driving the compiled graph from some state to `END`:
number of agent turns taken, number of collector (extraction) steps
executed, the final state, and the trace of states observed after each
graph step (starting with the entry state). -/
structure RunOutcome where
  turns : Nat
  collectorSteps : Nat
  finalState : ReflectionState
  trace : List ReflectionState
  deriving Repr

/-- Drives the conditional edges of the compiled graph from `state` until
`END`.  `responses` gives the agent LLM text for the turn taken at a
given round, `judgments` the raw classifier content consulted by the
router at a given round (`none` = classifier raised), `parseOutcome` the
collector's structured-parse outcome.  The graph maps the router labels
`"medical"`/`"engineer_agent"` to the two agent nodes and `"collector"`
to the extraction step; any other label would end the run without
extraction (the `"end"` edge, never taken). -/
def runDiscussionLoop (responses : Nat → String) (judgments : Nat → Option String)
    (parseOutcome : Option NeedsOutput) (state : ReflectionState) : RunOutcome :=
  if _h1 : shouldContinueDiscussion state (judgments state.discussion_round) = "collector" then
    let s2 := collector_node state parseOutcome
    { turns := 0, collectorSteps := 1, finalState := s2, trace := [state, s2] }
  else if _h2 : shouldContinueDiscussion state (judgments state.discussion_round) = "medical" then
    let out := runDiscussionLoop responses judgments parseOutcome
      (medical_staff_node state (responses state.discussion_round))
    { turns := out.turns + 1, collectorSteps := out.collectorSteps,
      finalState := out.finalState, trace := state :: out.trace }
  else if _h3 : shouldContinueDiscussion state (judgments state.discussion_round) = "engineer_agent" then
    let out := runDiscussionLoop responses judgments parseOutcome
      (engineer_node state (responses state.discussion_round))
    { turns := out.turns + 1, collectorSteps := out.collectorSteps,
      finalState := out.finalState, trace := state :: out.trace }
  else
    { turns := 0, collectorSteps := 0, finalState := state, trace := [state] }
termination_by state.max_rounds - state.discussion_round
decreasing_by
  · have hlt := round_lt_of_continue state (judgments state.discussion_round) _h1
    simp only [medical_staff_node]
    omega
  · have hlt := round_lt_of_continue state (judgments state.discussion_round) _h1
    simp only [engineer_node]
    omega

/-- The `initial_state` dict built by `run_reflection_sync`
(`need_finder.py` lines 423-430): one human message seeding the
discussion, empty insight logs, round zero. -/
def initialState (user_query : String) (max_rounds : Nat) : ReflectionState :=
  { messages := [Message.human user_query], medical_insights := [],
    engineering_insights := [], discussion_round := 0,
    max_rounds := max_rounds, final_summary := "" }

/-- The full graph run of `MedicalReflectionSystem` for one query:
`START` goes unconditionally to the medical node, after which the
conditional edges drive the run (`_build_graph`, `need_finder.py` lines
61-99). -/
def runReflectionGraph (user_query : String) (max_rounds : Nat) (responses : Nat → String)
    (judgments : Nat → Option String) (parseOutcome : Option NeedsOutput) : RunOutcome :=
  let s0 := initialState user_query max_rounds
  let out := runDiscussionLoop responses judgments parseOutcome
    (medical_staff_node s0 (responses 0))
  { turns := out.turns + 1, collectorSteps := out.collectorSteps,
    finalState := out.finalState, trace := s0 :: out.trace }

/-- Relation between consecutive states of a run: the round counter does
not decrease and the message list grows by exactly the one appended
message (so `messages` never shrinks). -/
def stepRel (a b : ReflectionState) : Prop :=
  a.discussion_round ≤ b.discussion_round ∧ ∃ m, b.messages = a.messages ++ [m]

/-- Main invariant of the discussion loop: starting from any state whose
round has not outrun its budget, the loop performs at most
`max_rounds - discussion_round` further agent turns, executes the
collector exactly once, and along the whole trace the round counter stays
within `max_rounds`, the budget is never modified, and each step only
appends one message while never decreasing the round. -/
theorem runDiscussionLoop_spec (responses : Nat → String) (judgments : Nat → Option String)
    (parseOutcome : Option NeedsOutput) :
    ∀ (n : Nat) (state : ReflectionState),
      state.max_rounds - state.discussion_round ≤ n →
      state.discussion_round ≤ state.max_rounds →
      (runDiscussionLoop responses judgments parseOutcome state).turns ≤
          state.max_rounds - state.discussion_round ∧
      (runDiscussionLoop responses judgments parseOutcome state).collectorSteps = 1 ∧
      (runDiscussionLoop responses judgments parseOutcome state).trace.head? = some state ∧
      List.Chain' stepRel (runDiscussionLoop responses judgments parseOutcome state).trace ∧
      ∀ t ∈ (runDiscussionLoop responses judgments parseOutcome state).trace,
        t.discussion_round ≤ t.max_rounds ∧ t.max_rounds = state.max_rounds := by
  intro n
  induction n with
  | zero =>
    intro state hn hle
    have h1 : shouldContinueDiscussion state (judgments state.discussion_round) = "collector" :=
      shouldContinueDiscussion_hard_stop state _ (by omega)
    rw [runDiscussionLoop, dif_pos h1]
    refine ⟨Nat.zero_le _, rfl, rfl, ?_, ?_⟩
    · rw [List.chain'_cons]
      exact ⟨by simp [stepRel, collector_node], List.chain'_singleton _⟩
    · intro t ht
      simp only [List.mem_cons, List.not_mem_nil, or_false] at ht
      rcases ht with rfl | rfl
      · exact ⟨hle, rfl⟩
      · exact ⟨by simpa [collector_node] using hle, by simp [collector_node]⟩
  | succ k ih =>
    intro state hn hle
    by_cases h1 : shouldContinueDiscussion state (judgments state.discussion_round) = "collector"
    · rw [runDiscussionLoop, dif_pos h1]
      refine ⟨Nat.zero_le _, rfl, rfl, ?_, ?_⟩
      · rw [List.chain'_cons]
        exact ⟨by simp [stepRel, collector_node], List.chain'_singleton _⟩
      · intro t ht
        simp only [List.mem_cons, List.not_mem_nil, or_false] at ht
        rcases ht with rfl | rfl
        · exact ⟨hle, rfl⟩
        · exact ⟨by simpa [collector_node] using hle, by simp [collector_node]⟩
    · have hlt : state.discussion_round < state.max_rounds :=
        round_lt_of_continue state _ h1
      by_cases h2 : shouldContinueDiscussion state (judgments state.discussion_round) = "medical"
      · rw [runDiscussionLoop]
        rw [dif_neg h1, dif_pos h2]
        have hIH := ih (medical_staff_node state (responses state.discussion_round))
          (by simp [medical_staff_node]; omega) (by simp [medical_staff_node]; omega)
        obtain ⟨hturns, hcoll, hhead, hchain, hmem⟩ := hIH
        refine ⟨?_, hcoll, rfl, ?_, ?_⟩
        · show (runDiscussionLoop responses judgments parseOutcome
              (medical_staff_node state (responses state.discussion_round))).turns + 1 ≤
              state.max_rounds - state.discussion_round
          have hms : (medical_staff_node state (responses state.discussion_round)).max_rounds
              = state.max_rounds := rfl
          have hmr : (medical_staff_node state
              (responses state.discussion_round)).discussion_round
              = state.discussion_round + 1 := rfl
          rw [hms, hmr] at hturns
          omega
        · rw [List.chain'_cons']
          refine ⟨?_, hchain⟩
          intro y hy
          rw [hhead] at hy
          simp only [Option.mem_def, Option.some.injEq] at hy
          subst hy
          exact ⟨by simp [medical_staff_node], by simp [medical_staff_node]⟩
        · intro t ht
          simp only [List.mem_cons] at ht
          rcases ht with rfl | ht
          · exact ⟨hle, rfl⟩
          · have := hmem t ht
            simpa [medical_staff_node] using this
      · by_cases h3 : shouldContinueDiscussion state (judgments state.discussion_round)
            = "engineer_agent"
        · rw [runDiscussionLoop]
          rw [dif_neg h1, dif_neg h2, dif_pos h3]
          have hIH := ih (engineer_node state (responses state.discussion_round))
            (by simp [engineer_node]; omega) (by simp [engineer_node]; omega)
          obtain ⟨hturns, hcoll, hhead, hchain, hmem⟩ := hIH
          refine ⟨?_, hcoll, rfl, ?_, ?_⟩
          · show (runDiscussionLoop responses judgments parseOutcome
                (engineer_node state (responses state.discussion_round))).turns + 1 ≤
                state.max_rounds - state.discussion_round
            have hms : (engineer_node state (responses state.discussion_round)).max_rounds
                = state.max_rounds := rfl
            have hmr : (engineer_node state
                (responses state.discussion_round)).discussion_round
                = state.discussion_round + 1 := rfl
            rw [hms, hmr] at hturns
            omega
          · rw [List.chain'_cons']
            refine ⟨?_, hchain⟩
            intro y hy
            rw [hhead] at hy
            simp only [Option.mem_def, Option.some.injEq] at hy
            subst hy
            exact ⟨by simp [engineer_node], by simp [engineer_node]⟩
          · intro t ht
            simp only [List.mem_cons] at ht
            rcases ht with rfl | ht
            · exact ⟨hle, rfl⟩
            · have := hmem t ht
              simpa [engineer_node] using this
        · rcases shouldContinueDiscussion_range state (judgments state.discussion_round)
            with h | h | h
          · exact absurd h h1
          · exact absurd h h2
          · exact absurd h h3

/-- The dict returned by `run_reflection_sync` (`need_finder.py` lines
419-451). -/
structure ReflectionRunResult where
  original_query : String
  discussion_rounds : Nat
  medical_insights : List String
  engineering_insights : List String
  parsed_needs : NeedsOutput
  final_summary : String
  full_conversation : List String
  deriving Repr, DecidableEq

/-- `run_reflection_sync`: builds the initial state, runs the graph, then
tries `ast.literal_eval(result["final_summary"])`; on any failure it
silently substitutes `{"needs": []}`.  `litEval` is the literal-eval
oracle (`none` models the `except` branch). -/
def run_reflection_sync (user_query : String) (max_rounds : Nat) (responses : Nat → String)
    (judgments : Nat → Option String) (parseOutcome : Option NeedsOutput)
    (litEval : String → Option NeedsOutput) : ReflectionRunResult :=
  let result := (runReflectionGraph user_query max_rounds responses judgments parseOutcome).finalState
  let parsed_needs := match litEval result.final_summary with
    | some p => p
    | none => { needs := [] }
  { original_query := user_query,
    discussion_rounds := result.discussion_round,
    medical_insights := result.medical_insights,
    engineering_insights := result.engineering_insights,
    parsed_needs := parsed_needs,
    final_summary := result.final_summary,
    full_conversation := result.messages.map Message.content }

/-- The `NeedEvaluation` pydantic model of `evaluator.py`.  Python floats
are modelled as rationals; every score the code constructs is exactly
representable. -/
structure NeedEvaluation where
  need_title : String
  feasibility_score : ℚ
  impact_score : ℚ
  innovation_score : ℚ
  resource_score : ℚ
  overall_score : ℚ
  strengths : List String
  weaknesses : List String
  recommendations : List String
  deriving Repr, DecidableEq

/-- The `NeedsEvaluationOutput` pydantic model of `evaluator.py`. -/
structure NeedsEvaluationOutput where
  evaluations : List NeedEvaluation
  summary : String
  top_priority_needs : List String
  deriving Repr, DecidableEq

/-- A Python value passed to `NeedEvaluator.evaluate_needs` as one need.
The signature declares `List[NeedItem]`, but the body disagrees with
itself on the runtime representation: `_format_needs_for_evaluation`
uses subscript access (`need["need"]`, dict-style, `evaluator.py` lines
109-113) while `_create_default_evaluation` uses attribute access
(`need.need`, pydantic-style, lines 125 and 140).  The constructor
records which representation the caller actually passed: a pydantic
`NeedItem` instance (as `evaluator.py`'s own `test_evaluator` builds) or
an `ast.literal_eval` dict with the five keys (as `run_api.py` line 139
and the `__main__` block of `need_finder.py` pass). -/
inductive PyNeed where
  | obj (item : NeedItem)
  | dict (item : NeedItem)
  deriving Repr, DecidableEq

/-- CPython's message for subscripting a pydantic model. -/
def pyTypeErrorMsg : String :=
  "TypeError: \x27NeedItem\x27 object is not subscriptable"

/-- CPython's message for attribute access on a plain dict. -/
def pyAttrErrorMsg : String :=
  "AttributeError: \x27dict\x27 object has no attribute \x27need\x27"

/-- Python subscript access `need["need"]` / `need["summary"]` / ...:
succeeds on a dict, raises `TypeError` on a pydantic `NeedItem`
(`BaseModel` defines no `__getitem__`). -/
def PyNeed.getSubscript : PyNeed → Except String NeedItem
  | .dict item => Except.ok item
  | .obj _ => Except.error pyTypeErrorMsg

/-- Python attribute access `need.need`: succeeds on a pydantic
`NeedItem`, raises `AttributeError` on a plain dict. -/
def PyNeed.getAttr : PyNeed → Except String NeedItem
  | .obj item => Except.ok item
  | .dict _ => Except.error pyAttrErrorMsg

/-- The `for` loop of `_format_needs_for_evaluation`: subscript-access
every need in order, stopping at the first exception. -/
def getSubscriptAll : List PyNeed → Except String (List NeedItem)
  | [] => Except.ok []
  | n :: rest => do
    let item ← n.getSubscript
    let items ← getSubscriptAll rest
    pure (item :: items)

/-- The `for` loops of `_create_default_evaluation`: attribute-access
every need in order, stopping at the first exception. -/
def getAttrAll : List PyNeed → Except String (List NeedItem)
  | [] => Except.ok []
  | n :: rest => do
    let item ← n.getAttr
    let items ← getAttrAll rest
    pure (item :: items)

/-- The per-need text block built by `_format_needs_for_evaluation`
(`evaluator.py` lines 108-115). -/
def formatNeedText (i : Nat) (need : NeedItem) : String :=
  "\n需求 " ++ toString i ++ ": " ++ need.need ++
  "\n摘要: " ++ need.summary ++
  "\n醫療觀點: " ++ need.medical_insights ++
  "\n技術觀點: " ++ need.tech_insights ++
  "\n實施策略: " ++ need.strategy ++ "\n---\n"

/-- `NeedEvaluator._format_needs_for_evaluation` (`evaluator.py` lines
104-118): renders every need with dict-style subscript access, so it
raises `TypeError` as soon as it meets a pydantic `NeedItem`. -/
def format_needs_for_evaluation (needs : List PyNeed) : Except String String := do
  let items ← getSubscriptAll needs
  pure (String.intercalate "\n" (items.enum.map (fun p => formatNeedText (p.1 + 1) p.2)))

/-- `NeedEvaluator._create_default_evaluation` (`evaluator.py` lines
120-141): one neutral-midpoint evaluation per input need, fixed
placeholder texts, and the first three input titles as the priority
list — but built with attribute access (`need.need`), so it raises
`AttributeError` as soon as it meets a dict. -/
def create_default_evaluation (needs : List PyNeed) : Except String NeedsEvaluationOutput := do
  let items ← getAttrAll needs
  pure
    { evaluations := items.map (fun need =>
        { need_title := need.need,
          feasibility_score := 5,
          impact_score := 5,
          innovation_score := 5,
          resource_score := 5,
          overall_score := 5,
          strengths := ["需要進一步分析"],
          weaknesses := ["評估過程失敗"],
          recommendations := ["重新執行評估"] }),
      summary := "評估過程遇到問題，請檢查輸入數據或重新執行評估",
      top_priority_needs := (items.take 3).map (fun need => need.need) }

/-- `NeedEvaluator.evaluate_needs` (`evaluator.py` lines 38-102).
`llmOutcome` is the schema-constrained Gateway call outcome (`none`
models `chain.invoke` raising or its output failing validation).  The
`Nat` component counts LLM Gateway calls made: the empty-input
short-circuit returns before any call; a non-empty input first runs
`_format_needs_for_evaluation` (line 84, *outside* the `try`, so its
`TypeError` on pydantic inputs propagates before any Gateway call),
then issues exactly one batch call whose failure is answered by
`_create_default_evaluation` inside the `except` block — whose own
`AttributeError` on dict inputs propagates out of the handler. -/
def evaluate_needs (needs : List PyNeed) (llmOutcome : Option NeedsEvaluationOutput) :
    Except String (NeedsEvaluationOutput × Nat) :=
  if needs.isEmpty then
    Except.ok ({ evaluations := [],
                 summary := "沒有需求項目需要評估",
                 top_priority_needs := [] }, 0)
  else do
    let _needs_content ← format_needs_for_evaluation needs
    match llmOutcome with
    | some result => pure (result, 1)
    | none => do
      let d ← create_default_evaluation needs
      pure (d, 1)

/-- One entry of `prioritized_needs` as built by `create_prioritization`
(`run_api.py` lines 192-202). -/
structure PrioritizedNeed where
  rank : Nat
  need_title : String
  overall_score : ℚ
  feasibility_score : ℚ
  impact_score : ℚ
  innovation_score : ℚ
  resource_score : ℚ
  priority_level : String
  deriving Repr, DecidableEq

/-- The dict returned by `create_prioritization`. -/
structure PrioritizationResult where
  prioritized_needs : List PrioritizedNeed
  ranking_criteria : List (String × String)
  recommendations : List String
  deriving Repr, DecidableEq

/-- Ordering used to model Python's
`sorted(evaluations, key=lambda x: x.overall_score, reverse=True)`:
CPython's sort is stable and `reverse=True` preserves the original order
of equal keys, so the result is exactly the index-tagged list sorted by
(overall score descending, original index ascending). -/
def sortKey (a b : Nat × NeedEvaluation) : Prop :=
  b.2.overall_score < a.2.overall_score ∨
    (a.2.overall_score = b.2.overall_score ∧ a.1 ≤ b.1)

instance : DecidableRel sortKey := fun a b => by
  unfold sortKey
  infer_instance

instance : IsTotal (Nat × NeedEvaluation) sortKey where
  total a b := by
    unfold sortKey
    rcases lt_trichotomy a.2.overall_score b.2.overall_score with h | h | h
    · exact Or.inr (Or.inl h)
    · rcases Nat.le_total a.1 b.1 with h' | h'
      · exact Or.inl (Or.inr ⟨h, h'⟩)
      · exact Or.inr (Or.inr ⟨h.symm, h'⟩)
    · exact Or.inl (Or.inl h)

instance : IsTrans (Nat × NeedEvaluation) sortKey where
  trans a b c hab hbc := by
    unfold sortKey at *
    rcases hab with hab | ⟨hab, hab'⟩ <;> rcases hbc with hbc | ⟨hbc, hbc'⟩
    · exact Or.inl (hbc.trans hab)
    · exact Or.inl (hbc ▸ hab)
    · exact Or.inl (hab ▸ hbc)
    · exact Or.inr ⟨hab.trans hbc, hab'.trans hbc'⟩

/-- The index-tagged stable sort underlying
`sorted(evaluations, key=lambda x: x.overall_score, reverse=True)`. -/
def sortedWithIdx (l : List NeedEvaluation) : List (Nat × NeedEvaluation) :=
  l.enum.insertionSort sortKey

/-- `sorted(evaluations, key=lambda x: x.overall_score, reverse=True)`
(`run_api.py` line 188): stable descending sort by overall score. -/
def pySortedByScoreDesc (l : List NeedEvaluation) : List NeedEvaluation :=
  (sortedWithIdx l).map Prod.snd

/-- The fixed `ranking_criteria` dict of `create_prioritization`. -/
def rankingCriteria : List (String × String) :=
  [("primary", "Overall Score (weighted combination of all factors)"),
   ("feasibility", "Technical implementation possibility (0-10)"),
   ("impact", "Potential impact on medical system (0-10)"),
   ("innovation", "Innovation level and differentiation (0-10)"),
   ("resource", "Resource efficiency (10 = low resource requirement)")]

/-- Renders a score the way the f-string in `create_prioritization`
renders the float `overall_score` (the claims only require that the
recommendation names the score, not CPython's exact float formatting). -/
def scoreStr (q : ℚ) : String := toString q

/-- The first recommendation line of `create_prioritization`, naming the
top-ranked need and its score. -/
def topNeedRecommendation (top : PrioritizedNeed) : String :=
  "Prioritize \x27" ++ top.need_title ++ "\x27 as it has the highest overall score of "
    ++ scoreStr top.overall_score

/-- `create_prioritization` (`run_api.py` lines 181-229): stable-sorts the
evaluations by overall score descending, assigns ranks `1..N` with
priority levels High (rank ≤ 2) / Medium (rank ≤ 4) / Low, and builds the
recommendation strings (top-need line when non-empty, "top 3" line when
more than one need, then two fixed advisory lines). -/
def create_prioritization (evaluation_result : NeedsEvaluationOutput) : PrioritizationResult :=
  let sorted_needs := pySortedByScoreDesc evaluation_result.evaluations
  let prioritized_needs := sorted_needs.enum.map (fun p =>
    { rank := p.1 + 1,
      need_title := p.2.need_title,
      overall_score := p.2.overall_score,
      feasibility_score := p.2.feasibility_score,
      impact_score := p.2.impact_score,
      innovation_score := p.2.innovation_score,
      resource_score := p.2.resource_score,
      priority_level :=
        if p.1 + 1 ≤ 2 then "High" else if p.1 + 1 ≤ 4 then "Medium" else "Low" })
  let recommendations :=
    (match prioritized_needs.head? with
     | some top_need => [topNeedRecommendation top_need]
     | none => []) ++
    (if 1 < prioritized_needs.length then
      ["Focus on top 3 ranked needs for maximum impact"] else []) ++
    ["Consider resource constraints when selecting implementation order",
     "Regularly reassess priorities based on changing requirements"]
  { prioritized_needs := prioritized_needs,
    ranking_criteria := rankingCriteria,
    recommendations := recommendations }

/-- Gateway-instrumented form of `create_prioritization`: the oracle
parameter stands for whatever the LLM Gateway would answer, and the
second component counts Gateway calls.  The source body contains no
Gateway invocation, so the oracle is never consulted and the count is
zero. -/
def create_prioritization_gw (evaluation_result : NeedsEvaluationOutput)
    (_gateway : Nat → String) : PrioritizationResult × Nat :=
  (create_prioritization evaluation_result, 0)

/-- Session entry for the evaluation / prioritization stages as written
by `process_reflection` (`run_api.py`): `completed` with a result, or
`error` with the exception message. -/
inductive StageOutcome (α : Type) where
  | completed (result : α)
  | error (message : String)
  deriving Repr, DecidableEq

/-- The fields of the session record that `process_reflection` fills in
after a successful reflection run. -/
structure SessionRecord where
  status : String
  evaluation : Option (StageOutcome NeedsEvaluationOutput)
  prioritization : Option (StageOutcome PrioritizationResult)
  deriving Repr, DecidableEq

/-- `process_reflection` (`run_api.py` lines 112-179) after
`run_reflection_sync` returned `result` successfully: marks the session
completed, and only when `result['parsed_needs']['needs']` is non-empty
(Python truthiness) runs the evaluator and the prioritizer; otherwise no
evaluation or prioritization entry is created for the session.  The
evaluator receives the `ast.literal_eval` dicts (`PyNeed.dict`) exactly
as `run_api.py` line 139 passes them; an exception it raises — and any
later exception in the block (`model_dump`, prioritization, store
mutation), modelled by `evalExc` — is caught at lines 158-169, which
record an error entry for both stages. -/
def process_reflection (result : ReflectionRunResult)
    (evalLLM : Option NeedsEvaluationOutput) (evalExc : Option String) : SessionRecord :=
  if result.parsed_needs.needs.isEmpty then
    { status := "completed", evaluation := none, prioritization := none }
  else
    match evaluate_needs (result.parsed_needs.needs.map PyNeed.dict) evalLLM with
    | Except.error e =>
      { status := "completed",
        evaluation := some (StageOutcome.error e),
        prioritization := some (StageOutcome.error e) }
    | Except.ok (evaluation_result, _) =>
      match evalExc with
      | some e =>
        { status := "completed",
          evaluation := some (StageOutcome.error e),
          prioritization := some (StageOutcome.error e) }
      | none =>
        { status := "completed",
          evaluation := some (StageOutcome.completed evaluation_result),
          prioritization :=
            some (StageOutcome.completed (create_prioritization evaluation_result)) }

/-- Behavior of one `_emit_status` call (`need_finder.py` lines 56-59):
`none` models both "no callback registered" and a callback returning
normally; `some e` models the registered callback raising `e`.  The
source guards only on registration and applies no exception handling. -/
def emit_status (callbackOutcome : Option String) : Except String Unit :=
  match callbackOutcome with
  | none => Except.ok ()
  | some e => Except.error e

/-- `medical_staff_node` with its two `_emit_status` side effects made
explicit (`need_finder.py` lines 122-163): `thinking_started` is emitted
before the LLM call and `thinking_completed` after the state update is
computed; an exception from either callback propagates out of the node
(there is no try/except around the emissions). -/
def medical_staff_node_rt (cbStarted cbCompleted : Option String)
    (state : ReflectionState) (response : String) : Except String ReflectionState := do
  let _ ← emit_status cbStarted
  let new_messages := state.messages ++ [Message.ai response]
  let medical_insights := state.medical_insights ++ [response]
  let _ ← emit_status cbCompleted
  pure { state with
         messages := new_messages,
         medical_insights := medical_insights,
         discussion_round := state.discussion_round + 1 }

/-- The stable sort is a permutation of the index-tagged input. -/
theorem sortedWithIdx_perm (l : List NeedEvaluation) : List.Perm (sortedWithIdx l) l.enum :=
  List.perm_insertionSort sortKey l.enum

/-- The stable sort is sorted for the lexicographic key order. -/
theorem sortedWithIdx_pairwise (l : List NeedEvaluation) :
    List.Pairwise sortKey (sortedWithIdx l) :=
  List.sorted_insertionSort sortKey l.enum

/-- Dropping the index tags yields a permutation of the input list. -/
theorem pySortedByScoreDesc_perm (l : List NeedEvaluation) :
    List.Perm (pySortedByScoreDesc l) l := by
  have h := (sortedWithIdx_perm l).map Prod.snd
  rw [List.enum_map_snd] at h
  exact h

/-- The sorted output is non-increasing in `overall_score`. -/
theorem pySortedByScoreDesc_sorted (l : List NeedEvaluation) :
    List.Pairwise (fun a b : NeedEvaluation => b.overall_score ≤ a.overall_score)
      (pySortedByScoreDesc l) := by
  unfold pySortedByScoreDesc
  rw [List.pairwise_map]
  refine (sortedWithIdx_pairwise l).imp ?_
  intro a b hab
  rcases hab with h | ⟨h, _⟩
  · exact le_of_lt h
  · exact le_of_eq h.symm

/-- The original positions attached by the sort are pairwise distinct. -/
theorem sortedWithIdx_fst_nodup (l : List NeedEvaluation) :
    ((sortedWithIdx l).map Prod.fst).Nodup :=
  ((sortedWithIdx_perm l).map Prod.fst).nodup_iff.mpr (List.nodup_enum_map_fst l)

/-- Stability of the modelled Python sort: whenever two entries carry the
same overall score, the one placed earlier in the sorted output came from
a strictly earlier position of the input list. -/
theorem sortedWithIdx_stable (l : List NeedEvaluation) :
    List.Pairwise (fun a b : Nat × NeedEvaluation =>
      a.2.overall_score = b.2.overall_score → a.1 < b.1) (sortedWithIdx l) := by
  have h1 := sortedWithIdx_pairwise l
  have h2 : List.Pairwise (fun a b : Nat × NeedEvaluation => a.1 ≠ b.1) (sortedWithIdx l) :=
    List.pairwise_map.mp (sortedWithIdx_fst_nodup l)
  refine (h1.and h2).imp ?_
  intro a b hab heq
  rcases hab with ⟨hk | ⟨_, hle⟩, hne⟩
  · rw [heq] at hk
    exact absurd hk (lt_irrefl _)
  · exact Nat.lt_of_le_of_ne hle hne

/-- The index tags of the sorted output are genuine input positions: each
sorted entry `(i, e)` satisfies `l[i]? = some e`. -/
theorem sortedWithIdx_mem (l : List NeedEvaluation) :
    ∀ p ∈ sortedWithIdx l, l[p.1]? = some p.2 := by
  intro p hp
  have hmem : p ∈ l.enum := (sortedWithIdx_perm l).mem_iff.mp hp
  rcases p with ⟨i, e⟩
  exact List.mk_mem_enum_iff_getElem?.mp hmem

/-- Claim C1: for every `max_rounds ≥ 1`, a discussion run terminates in
at most `max_rounds` agent turns plus one extraction step, regardless of
the classifier's responses: the routing function checks
`round >= max_rounds` before anything else and returns the extraction
step unconditionally when it holds, so the state machine always reaches
the collector and then `END`. -/
theorem claim_C1_termination (user_query : String) (max_rounds : Nat)
    (responses : Nat → String) (judgments : Nat → Option String)
    (parseOutcome : Option NeedsOutput) (hmax : 1 ≤ max_rounds) :
    (runReflectionGraph user_query max_rounds responses judgments parseOutcome).turns
      ≤ max_rounds ∧
    (runReflectionGraph user_query max_rounds responses judgments parseOutcome).collectorSteps
      = 1 ∧
    ∀ (state : ReflectionState) (judgment : Option String),
      state.max_rounds ≤ state.discussion_round →
      shouldContinueDiscussion state judgment = "collector" := by
  have hspec := runDiscussionLoop_spec responses judgments parseOutcome max_rounds
    (medical_staff_node (initialState user_query max_rounds) (responses 0))
    (by simp [medical_staff_node, initialState]) (by simp [medical_staff_node, initialState]; omega)
  obtain ⟨hturns, hcoll, -, -, -⟩ := hspec
  refine ⟨?_, hcoll, fun state j h => shouldContinueDiscussion_hard_stop state j h⟩
  show (runDiscussionLoop responses judgments parseOutcome
    (medical_staff_node (initialState user_query max_rounds) (responses 0))).turns + 1
      ≤ max_rounds
  have hms : (medical_staff_node (initialState user_query max_rounds)
      (responses 0)).max_rounds = max_rounds := rfl
  have hmr : (medical_staff_node (initialState user_query max_rounds)
      (responses 0)).discussion_round = 1 := rfl
  rw [hms, hmr] at hturns
  omega

/-- Claim C1 witness: a concrete one-round run with a failing classifier
and a failing extraction parse. -/
theorem claim_C1_termination_witness :
    (1:Nat) ≤ 1 ∧
    ((runReflectionGraph "q" 1 (fun _ => "resp") (fun _ => none) none).turns ≤ 1 ∧
     (runReflectionGraph "q" 1 (fun _ => "resp") (fun _ => none) none).collectorSteps = 1 ∧
     ∀ (state : ReflectionState) (judgment : Option String),
       state.max_rounds ≤ state.discussion_round →
       shouldContinueDiscussion state judgment = "collector") :=
  ⟨by decide, claim_C1_termination "q" 1 (fun _ => "resp") (fun _ => none) none (by decide)⟩

/-- Claim C8: across every step of a discussion run, the round counter is
monotonically non-decreasing (each agent turn increments it by exactly
one, the collector leaves it unchanged) and never exceeds `max_rounds`,
and the message sequence never shrinks (each step appends exactly one
message). -/
theorem claim_C8_state_invariants (user_query : String) (max_rounds : Nat)
    (responses : Nat → String) (judgments : Nat → Option String)
    (parseOutcome : Option NeedsOutput) (hmax : 1 ≤ max_rounds) :
    List.Chain' stepRel
      (runReflectionGraph user_query max_rounds responses judgments parseOutcome).trace ∧
    (∀ t ∈ (runReflectionGraph user_query max_rounds responses judgments parseOutcome).trace,
      t.discussion_round ≤ t.max_rounds) ∧
    (∀ (s : ReflectionState) (r : String),
      (medical_staff_node s r).discussion_round = s.discussion_round + 1 ∧
      (medical_staff_node s r).messages = s.messages ++ [Message.ai r]) ∧
    (∀ (s : ReflectionState) (r : String),
      (engineer_node s r).discussion_round = s.discussion_round + 1 ∧
      (engineer_node s r).messages = s.messages ++ [Message.ai r]) ∧
    (∀ (s : ReflectionState) (p : Option NeedsOutput),
      (collector_node s p).discussion_round = s.discussion_round ∧
      (collector_node s p).messages
        = s.messages ++ [Message.ai (needsOutputStr (collectorParsedOutput p))]) := by
  have hspec := runDiscussionLoop_spec responses judgments parseOutcome max_rounds
    (medical_staff_node (initialState user_query max_rounds) (responses 0))
    (by simp [medical_staff_node, initialState]) (by simp [medical_staff_node, initialState]; omega)
  obtain ⟨-, -, hhead, hchain, hmem⟩ := hspec
  refine ⟨?_, ?_, fun s r => ⟨rfl, rfl⟩, fun s r => ⟨rfl, rfl⟩, fun s p => ⟨rfl, rfl⟩⟩
  · show List.Chain' stepRel (initialState user_query max_rounds ::
      (runDiscussionLoop responses judgments parseOutcome
        (medical_staff_node (initialState user_query max_rounds) (responses 0))).trace)
    rw [List.chain'_cons']
    refine ⟨?_, hchain⟩
    intro y hy
    rw [hhead] at hy
    simp only [Option.mem_def, Option.some.injEq] at hy
    subst hy
    exact ⟨by simp [medical_staff_node], by simp [medical_staff_node]⟩
  · intro t ht
    have ht' : t = initialState user_query max_rounds ∨
        t ∈ (runDiscussionLoop responses judgments parseOutcome
          (medical_staff_node (initialState user_query max_rounds) (responses 0))).trace := by
      simpa [runReflectionGraph] using ht
    rcases ht' with rfl | ht'
    · exact Nat.zero_le _
    · exact (hmem t ht').1

/-- Claim C8 witness: the invariants at a concrete two-round run. -/
theorem claim_C8_state_invariants_witness :
    (1:Nat) ≤ 2 ∧
    (List.Chain' stepRel
      (runReflectionGraph "q" 2 (fun _ => "resp") (fun _ => some "medical") none).trace ∧
    (∀ t ∈ (runReflectionGraph "q" 2 (fun _ => "resp") (fun _ => some "medical") none).trace,
      t.discussion_round ≤ t.max_rounds) ∧
    (∀ (s : ReflectionState) (r : String),
      (medical_staff_node s r).discussion_round = s.discussion_round + 1 ∧
      (medical_staff_node s r).messages = s.messages ++ [Message.ai r]) ∧
    (∀ (s : ReflectionState) (r : String),
      (engineer_node s r).discussion_round = s.discussion_round + 1 ∧
      (engineer_node s r).messages = s.messages ++ [Message.ai r]) ∧
    (∀ (s : ReflectionState) (p : Option NeedsOutput),
      (collector_node s p).discussion_round = s.discussion_round ∧
      (collector_node s p).messages
        = s.messages ++ [Message.ai (needsOutputStr (collectorParsedOutput p))])) :=
  ⟨by decide,
   claim_C8_state_invariants "q" 2 (fun _ => "resp") (fun _ => some "medical") none (by decide)⟩

/-- Claim C3: whenever the Router's classifier call fails (`none`) or
returns a label recognized as neither category (neither `"medical"` nor
`"engineering"` occurs in the stripped, lower-cased content), and
`round < max_rounds` with the last message authored by an agent, the
Router returns the role determined solely by the parity of the round
counter: even round → `"engineer_agent"` (role B), odd round →
`"medical"` (role A).  The fallback is a total function of the state and
judgment (it cannot itself throw), hence deterministic. -/
theorem claim_C3_router_parity_fallback (state : ReflectionState) (judgment : Option String)
    (c : String)
    (hlt : state.discussion_round < state.max_rounds)
    (hlast : state.messages.getLast? = some (Message.ai c))
    (hfail : judgment = none ∨
      ∃ raw, judgment = some raw ∧ pyIn "medical" (pyLower (pyStrip raw)) = false ∧
        pyIn "engineering" (pyLower (pyStrip raw)) = false) :
    shouldContinueDiscussion state judgment
      = (if state.discussion_round % 2 = 0 then "engineer_agent" else "medical") ∧
    (state.discussion_round % 2 = 0 →
      shouldContinueDiscussion state judgment = "engineer_agent") ∧
    (state.discussion_round % 2 = 1 →
      shouldContinueDiscussion state judgment = "medical") := by
  have hn : ¬ state.max_rounds ≤ state.discussion_round := Nat.not_le.mpr hlt
  have hmain : shouldContinueDiscussion state judgment
      = (if state.discussion_round % 2 = 0 then "engineer_agent" else "medical") := by
    rcases hfail with rfl | ⟨raw, rfl, hm, he⟩
    · simp [shouldContinueDiscussion, hn, hlast, parityFallback]
    · simp [shouldContinueDiscussion, hn, hlast, hm, he, parityFallback]
  refine ⟨hmain, ?_, ?_⟩
  · intro hpar
    rw [hmain, if_pos hpar]
  · intro hpar
    rw [hmain, if_neg (by omega)]

/-- Claim C3 witness: concrete even-round state, classifier raising, and
a concrete unrecognized label on an odd-round state. -/
theorem claim_C3_router_parity_fallback_witness :
    shouldContinueDiscussion
      { messages := [Message.ai "x"], medical_insights := [], engineering_insights := [],
        discussion_round := 0, max_rounds := 1, final_summary := "" } none
      = "engineer_agent" ∧
    shouldContinueDiscussion
      { messages := [Message.ai "x"], medical_insights := [], engineering_insights := [],
        discussion_round := 1, max_rounds := 2, final_summary := "" } (some "  Nonsense  ")
      = "medical" :=
  ⟨(claim_C3_router_parity_fallback _ none "x" (by decide) (by rfl)
      (Or.inl rfl)).2.1 (by decide),
   (claim_C3_router_parity_fallback _ (some "  Nonsense  ") "x" (by decide) (by rfl)
      (Or.inr ⟨"  Nonsense  ", rfl, by decide, by decide⟩)).2.2 (by decide)⟩

/-- Claim C4 counterexample: the claim asserts the Extractor's output is
non-empty for *any* non-crashing transcript, but a schema-valid model
output whose needs list is empty parses successfully and is returned
as-is, so a non-crashing extraction can yield an empty collection. -/
theorem claim_C4_counterexample :
    (collectorParsedOutput (some { needs := [] })).needs = [] ∧
    (collector_node (initialState "q" 1) (some { needs := [] })).final_summary
      = needsOutputStr { needs := [] } :=
  ⟨rfl, rfl⟩

/-- Claim C4 (amended): the Extractor never propagates a
schema-validation error: on parse failure it returns the single-element
sentinel collection whose one item has all five fields stating the
failure; on successful parse it returns exactly the parsed model output
(which is therefore non-empty whenever the model's parsed output is
non-empty, but may be empty).  `collector_node` is a total function of
state and parse outcome. -/
theorem claim_C4_extractor_fallback (state : ReflectionState)
    (parseOutcome : Option NeedsOutput) :
    (parseOutcome = none →
      collectorParsedOutput parseOutcome = parseFailureNeeds ∧
      (collectorParsedOutput parseOutcome).needs.length = 1 ∧
      ∀ item ∈ (collectorParsedOutput parseOutcome).needs,
        item.need = "解析失敗的需求" ∧
        item.summary = "解析失敗，請檢查輸出格式" ∧
        item.medical_insights = "無法解析醫療洞察" ∧
        item.tech_insights = "無法解析技術洞察" ∧
        item.strategy = "無法解析策略") ∧
    (∀ r, parseOutcome = some r → collectorParsedOutput parseOutcome = r) ∧
    (collector_node state parseOutcome).final_summary
      = needsOutputStr (collectorParsedOutput parseOutcome) ∧
    (collector_node state parseOutcome).messages
      = state.messages ++ [Message.ai (needsOutputStr (collectorParsedOutput parseOutcome))] := by
  refine ⟨?_, ?_, rfl, rfl⟩
  · rintro rfl
    refine ⟨rfl, rfl, ?_⟩
    intro item hitem
    simp only [collectorParsedOutput, parseFailureNeeds, List.mem_singleton] at hitem
    subst hitem
    exact ⟨rfl, rfl, rfl, rfl, rfl⟩
  · rintro r rfl
    rfl

/-- Claim C4 witness: the sentinel fallback at a concrete failing parse. -/
theorem claim_C4_extractor_fallback_witness :
    (collectorParsedOutput none = parseFailureNeeds ∧
      (collectorParsedOutput none).needs.length = 1 ∧
      ∀ item ∈ (collectorParsedOutput none).needs,
        item.need = "解析失敗的需求" ∧
        item.summary = "解析失敗，請檢查輸出格式" ∧
        item.medical_insights = "無法解析醫療洞察" ∧
        item.tech_insights = "無法解析技術洞察" ∧
        item.strategy = "無法解析策略") ∧
    (collector_node (initialState "q" 1) none).final_summary
      = needsOutputStr (collectorParsedOutput none) :=
  ⟨(claim_C4_extractor_fallback (initialState "q" 1) none).1 rfl,
   (claim_C4_extractor_fallback (initialState "q" 1) none).2.2.1⟩

/-- Claim C5: for every non-empty input list of needs, when the
Evaluator's schema-constrained LLM call fails, the fallback returns
exactly one `NeedEvaluation` per input `NeedItem` (same titles, same
order), with all five score fields equal to `5.0`, the fixed placeholder
strengths/weaknesses/recommendations text, and `top_priority_needs`
equal to the first three input titles in original order; the fallback is
a total function and cannot itself fail. -/
theorem getSubscriptAll_dict (items : List NeedItem) :
    getSubscriptAll (items.map PyNeed.dict) = Except.ok items := by
  induction items with
  | nil => rfl
  | cons a l ih =>
    rw [List.map_cons]
    show (do
      let item ← PyNeed.getSubscript (PyNeed.dict a)
      let rest ← getSubscriptAll (l.map PyNeed.dict)
      pure (item :: rest)) = Except.ok (a :: l)
    rw [ih]
    rfl

theorem getAttrAll_obj (items : List NeedItem) :
    getAttrAll (items.map PyNeed.obj) = Except.ok items := by
  induction items with
  | nil => rfl
  | cons a l ih =>
    rw [List.map_cons]
    show (do
      let item ← PyNeed.getAttr (PyNeed.obj a)
      let rest ← getAttrAll (l.map PyNeed.obj)
      pure (item :: rest)) = Except.ok (a :: l)
    rw [ih]
    rfl

/-- Claim C5 (code-bug evidence): the source contradicts its own type
annotation and its own `test_evaluator`.  (a) On the declared
`List[NeedItem]` input (pydantic objects, exactly what `test_evaluator`
builds) `evaluate_needs` raises `TypeError` at
`_format_needs_for_evaluation` — line 84, *outside* the `try` — before
any Gateway call, so the fallback is unreachable.  (b) On the
`ast.literal_eval` dicts every real call site passes, the format step
succeeds but a failing Gateway call reaches
`_create_default_evaluation`, which raises `AttributeError` at
`need.need` — so "this fallback never fails" is false in every
configuration.  (c) The intended default values (one evaluation per
need, all scores 5.0, placeholders, first three titles) are exactly
what `_create_default_evaluation` computes when its attribute accesses
succeed, confirming the claim describes the intent the code misses. -/
theorem claim_C5_evaluator_fallback_crashes (item : NeedItem) (rest : List PyNeed)
    (items : List NeedItem) (llmOutcome : Option NeedsEvaluationOutput) :
    evaluate_needs (PyNeed.obj item :: rest) llmOutcome
      = Except.error pyTypeErrorMsg ∧
    evaluate_needs ((item :: items).map PyNeed.dict) none
      = Except.error pyAttrErrorMsg ∧
    create_default_evaluation ((item :: items).map PyNeed.obj)
      = Except.ok
          { evaluations := (item :: items).map (fun need =>
              { need_title := need.need,
                feasibility_score := 5,
                impact_score := 5,
                innovation_score := 5,
                resource_score := 5,
                overall_score := 5,
                strengths := ["需要進一步分析"],
                weaknesses := ["評估過程失敗"],
                recommendations := ["重新執行評估"] }),
            summary := "評估過程遇到問題，請檢查輸入數據或重新執行評估",
            top_priority_needs := ((item :: items).take 3).map (fun need => need.need) } := by
  refine ⟨rfl, ?_, ?_⟩
  · unfold evaluate_needs format_needs_for_evaluation create_default_evaluation
    rw [getSubscriptAll_dict]
    rfl
  · unfold create_default_evaluation
    rw [getAttrAll_obj]
    rfl

/-- Claim C6 counterexample: the empty-input short-circuit summary is the
fixed Chinese string `沒有需求項目需要評估`, not the literal English text
`no needs to evaluate` asserted by the claim. -/
theorem claim_C6_counterexample :
    (evaluate_needs [] none).toOption.map (fun out => out.1.summary)
      ≠ some "no needs to evaluate" := by
  decide

/-- Claim C6 (amended): when called with an empty needs collection the
Evaluator returns `evaluations = []`, the fixed summary string
`沒有需求項目需要評估` (Chinese for "no needs to evaluate"), and
`top_priority_needs = []`, raises nothing (the short-circuit at
`evaluator.py` lines 48-53 returns before the crashing format step),
and makes no LLM Gateway call at all (call count 0), whatever the
Gateway would have answered: a defined short-circuit, not an error. -/
theorem claim_C6_empty_shortcircuit (llmOutcome : Option NeedsEvaluationOutput) :
    evaluate_needs [] llmOutcome
      = Except.ok ({ evaluations := [], summary := "沒有需求項目需要評估",
                     top_priority_needs := [] }, 0) :=
  rfl

/-- Claim C7 counterexample: a registered observer callback that throws
makes the Turn Executor's turn fail — the exception propagates out of the
node instead of being swallowed. -/
theorem claim_C7_counterexample :
    medical_staff_node_rt (some "observer failure") none (initialState "q" 3) "resp"
      = Except.error "observer failure" := rfl

/-- Claim C7 (amended): emitting a status event invokes the observer
callback directly with no exception handling: when no callback is
registered or the callbacks return normally the emissions do not alter
the turn's result (the node returns exactly the pure state update), but
if either callback throws, the exception propagates and the turn fails
with that error. -/
theorem claim_C7_emit_status_propagates (cbStarted cbCompleted : Option String)
    (state : ReflectionState) (response : String) :
    (cbStarted = none → cbCompleted = none →
      medical_staff_node_rt cbStarted cbCompleted state response
        = Except.ok (medical_staff_node state response)) ∧
    (∀ e, cbStarted = some e →
      medical_staff_node_rt cbStarted cbCompleted state response = Except.error e) ∧
    (∀ e, cbStarted = none → cbCompleted = some e →
      medical_staff_node_rt cbStarted cbCompleted state response = Except.error e) := by
  refine ⟨?_, ?_, ?_⟩
  · rintro rfl rfl
    rfl
  · rintro e rfl
    rfl
  · rintro e rfl rfl
    rfl

/-- Claim C7 witness: with no registered callback the turn returns the
pure state update. -/
theorem claim_C7_emit_status_propagates_witness :
    medical_staff_node_rt none none (initialState "q" 3) "resp"
      = Except.ok (medical_staff_node (initialState "q" 3) "resp") :=
  (claim_C7_emit_status_propagates none none (initialState "q" 3) "resp").1 rfl rfl

/-- Claim C2: for every `EvaluationResult`, `create_prioritization`
stable-sorts the evaluations by `overall_score` descending with ties
kept in original input order, assigns rank `1..N` in that order, assigns
`priority_level` High for rank ≤ 2, Medium for rank ≤ 4, Low otherwise,
and (whenever a top-ranked need exists) includes a recommendation naming
the top-ranked need's title and score followed by the fixed advisory
text. -/
theorem claim_C2_prioritization (er : NeedsEvaluationOutput) :
    (create_prioritization er).prioritized_needs.length = er.evaluations.length ∧
    List.Perm (pySortedByScoreDesc er.evaluations) er.evaluations ∧
    List.Pairwise (fun a b : NeedEvaluation => b.overall_score ≤ a.overall_score)
      (pySortedByScoreDesc er.evaluations) ∧
    List.Pairwise (fun a b : Nat × NeedEvaluation =>
      a.2.overall_score = b.2.overall_score → a.1 < b.1) (sortedWithIdx er.evaluations) ∧
    (∀ p ∈ sortedWithIdx er.evaluations, er.evaluations[p.1]? = some p.2) ∧
    pySortedByScoreDesc er.evaluations = (sortedWithIdx er.evaluations).map Prod.snd ∧
    (∀ (i : Nat) (h1 : i < (create_prioritization er).prioritized_needs.length)
       (h2 : i < (pySortedByScoreDesc er.evaluations).length),
      (create_prioritization er).prioritized_needs[i].rank = i + 1 ∧
      (create_prioritization er).prioritized_needs[i].priority_level
        = (if i + 1 ≤ 2 then "High" else if i + 1 ≤ 4 then "Medium" else "Low") ∧
      (create_prioritization er).prioritized_needs[i].need_title
        = (pySortedByScoreDesc er.evaluations)[i].need_title ∧
      (create_prioritization er).prioritized_needs[i].overall_score
        = (pySortedByScoreDesc er.evaluations)[i].overall_score) ∧
    (er.evaluations ≠ [] →
      ∃ top, (create_prioritization er).prioritized_needs.head? = some top ∧
        (create_prioritization er).recommendations
          = topNeedRecommendation top ::
            ((if 1 < (create_prioritization er).prioritized_needs.length then
                ["Focus on top 3 ranked needs for maximum impact"] else []) ++
             ["Consider resource constraints when selecting implementation order",
              "Regularly reassess priorities based on changing requirements"])) := by
  have hlen : (create_prioritization er).prioritized_needs.length = er.evaluations.length := by
    show ((pySortedByScoreDesc er.evaluations).enum.map _).length = _
    rw [List.length_map, List.enum_length]
    exact (pySortedByScoreDesc_perm er.evaluations).length_eq
  refine ⟨hlen, pySortedByScoreDesc_perm _, pySortedByScoreDesc_sorted _,
    sortedWithIdx_stable _, sortedWithIdx_mem _, rfl, ?_, ?_⟩
  · intro i h1 h2
    have hget : (create_prioritization er).prioritized_needs[i]
        = { rank := i + 1,
            need_title := (pySortedByScoreDesc er.evaluations)[i].need_title,
            overall_score := (pySortedByScoreDesc er.evaluations)[i].overall_score,
            feasibility_score := (pySortedByScoreDesc er.evaluations)[i].feasibility_score,
            impact_score := (pySortedByScoreDesc er.evaluations)[i].impact_score,
            innovation_score := (pySortedByScoreDesc er.evaluations)[i].innovation_score,
            resource_score := (pySortedByScoreDesc er.evaluations)[i].resource_score,
            priority_level :=
              if i + 1 ≤ 2 then "High" else if i + 1 ≤ 4 then "Medium" else "Low" } := by
      show ((pySortedByScoreDesc er.evaluations).enum.map _)[i] = _
      rw [List.getElem_map, List.getElem_enum]
    rw [hget]
    exact ⟨rfl, rfl, rfl, rfl⟩
  · intro hne
    have hpos : 0 < (create_prioritization er).prioritized_needs.length := by
      rw [hlen]
      exact List.length_pos.mpr hne
    rcases hpn : (create_prioritization er).prioritized_needs with _ | ⟨a, l⟩
    · rw [hpn] at hpos
      exact absurd hpos (by simp)
    · refine ⟨a, rfl, ?_⟩
      have hrec : (create_prioritization er).recommendations
          = (match (create_prioritization er).prioritized_needs.head? with
             | some top_need => [topNeedRecommendation top_need]
             | none => []) ++
            (if 1 < (create_prioritization er).prioritized_needs.length then
              ["Focus on top 3 ranked needs for maximum impact"] else []) ++
            ["Consider resource constraints when selecting implementation order",
             "Regularly reassess priorities based on changing requirements"] := rfl
      rw [hrec, hpn]
      rfl

/-- Five concrete evaluations (scores 7, 9, 7, 3, 9) exercising the
priority-level boundary and tie stability for the C2 witness. -/
def sampleEvaluations : NeedsEvaluationOutput :=
  { evaluations :=
      [{ need_title := "A", feasibility_score := 5, impact_score := 5,
         innovation_score := 5, resource_score := 5, overall_score := 7,
         strengths := [], weaknesses := [], recommendations := [] },
       { need_title := "B", feasibility_score := 5, impact_score := 5,
         innovation_score := 5, resource_score := 5, overall_score := 9,
         strengths := [], weaknesses := [], recommendations := [] },
       { need_title := "C", feasibility_score := 5, impact_score := 5,
         innovation_score := 5, resource_score := 5, overall_score := 7,
         strengths := [], weaknesses := [], recommendations := [] },
       { need_title := "D", feasibility_score := 5, impact_score := 5,
         innovation_score := 5, resource_score := 5, overall_score := 3,
         strengths := [], weaknesses := [], recommendations := [] },
       { need_title := "E", feasibility_score := 5, impact_score := 5,
         innovation_score := 5, resource_score := 5, overall_score := 9,
         strengths := [], weaknesses := [], recommendations := [] }],
    summary := "s", top_priority_needs := [] }

/-- Claim C2 witness: at the concrete five-need evaluation the computed
ranking is B, E (the two 9s, stable), A, C (the two 7s, stable), D, with
ranks 1-2 High, 3-4 Medium, 5 Low, and the recommendation list opens
with the top-need line. -/
theorem claim_C2_prioritization_witness :
    ((create_prioritization sampleEvaluations).prioritized_needs.map
        (fun p => (p.rank, p.need_title, p.priority_level))
      = [(1, "B", "High"), (2, "E", "High"), (3, "A", "Medium"),
         (4, "C", "Medium"), (5, "D", "Low")]) ∧
    (∃ top, (create_prioritization sampleEvaluations).prioritized_needs.head? = some top ∧
      (create_prioritization sampleEvaluations).recommendations
        = topNeedRecommendation top ::
          ((if 1 < (create_prioritization sampleEvaluations).prioritized_needs.length then
              ["Focus on top 3 ranked needs for maximum impact"] else []) ++
           ["Consider resource constraints when selecting implementation order",
            "Regularly reassess priorities based on changing requirements"])) := by
  refine ⟨by decide, ?_⟩
  exact (claim_C2_prioritization sampleEvaluations).2.2.2.2.2.2.2 (by decide)

/-- Claim C9: the Prioritizer is a pure, deterministic function: its
Gateway-instrumented form ignores the Gateway oracle (identical outputs
for any two oracles) and performs zero Gateway calls, it agrees with the
plain function, and its output is a genuine reordering of the input
evaluations (same multiset of titles). -/
theorem claim_C9_prioritizer_pure (er : NeedsEvaluationOutput) (gw gw1 gw2 : Nat → String) :
    create_prioritization_gw er gw1 = create_prioritization_gw er gw2 ∧
    (create_prioritization_gw er gw).2 = 0 ∧
    (create_prioritization_gw er gw).1 = create_prioritization er ∧
    List.Perm ((create_prioritization er).prioritized_needs.map (fun p => p.need_title))
      (er.evaluations.map (fun e => e.need_title)) := by
  refine ⟨rfl, rfl, rfl, ?_⟩
  have h1 : (create_prioritization er).prioritized_needs.map (fun p => p.need_title)
      = (pySortedByScoreDesc er.evaluations).map (fun e => e.need_title) := by
    show (((pySortedByScoreDesc er.evaluations).enum.map _).map _) = _
    rw [List.map_map]
    conv_rhs =>
      rw [← List.enum_map_snd (pySortedByScoreDesc er.evaluations), List.map_map]
    rfl
  rw [h1]
  exact (pySortedByScoreDesc_perm er.evaluations).map _

/-- Claim C10: when `ast.literal_eval` fails on the collector's
`final_summary`, `run_reflection_sync` silently substitutes
`{"needs": []}` in the returned result, so a completed run can carry an
empty needs list, and `process_reflection` then skips evaluation and
prioritization entirely: no evaluation or prioritization entry is
created for the session. -/
theorem claim_C10_literal_eval_substitution (user_query : String) (max_rounds : Nat)
    (responses : Nat → String) (judgments : Nat → Option String)
    (parseOutcome : Option NeedsOutput) (litEval : String → Option NeedsOutput)
    (evalLLM : Option NeedsEvaluationOutput) (evalExc : Option String)
    (hfail : litEval ((runReflectionGraph user_query max_rounds responses judgments
        parseOutcome).finalState.final_summary) = none) :
    (run_reflection_sync user_query max_rounds responses judgments parseOutcome
        litEval).parsed_needs = { needs := [] } ∧
    process_reflection
        (run_reflection_sync user_query max_rounds responses judgments parseOutcome litEval)
        evalLLM evalExc
      = { status := "completed", evaluation := none, prioritization := none } := by
  have hpn : (run_reflection_sync user_query max_rounds responses judgments parseOutcome
      litEval).parsed_needs = { needs := [] } := by
    show (match litEval ((runReflectionGraph user_query max_rounds responses judgments
        parseOutcome).finalState.final_summary) with
      | some p => p
      | none => { needs := [] }) = ({ needs := [] } : NeedsOutput)
    rw [hfail]
  refine ⟨hpn, ?_⟩
  unfold process_reflection
  rw [hpn]
  rfl

/-- Claim C10 witness: a concrete run whose literal-eval oracle always
fails (even though the collector produced the sentinel collection). -/
theorem claim_C10_literal_eval_substitution_witness :
    (run_reflection_sync "q" 1 (fun _ => "resp") (fun _ => none) none
        (fun _ => none)).parsed_needs = { needs := [] } ∧
    process_reflection
        (run_reflection_sync "q" 1 (fun _ => "resp") (fun _ => none) none (fun _ => none))
        none none
      = { status := "completed", evaluation := none, prioritization := none } :=
  claim_C10_literal_eval_substitution "q" 1 (fun _ => "resp") (fun _ => none) none
    (fun _ => none) none none rfl

end BioDesign
